import Mathlib

set_option maxHeartbeats 1000000
set_option autoImplicit false

/-!
Verification of the voice turn-taking orchestrator of the RecipeSnap component
(`RecipeSnapTab`).  The embedding translates the voice-cooking part of the
component: the navigation interpretation inside `onResponseComplete`, the step
pointer functions `nextStep`/`prevStep`, and the session orchestration
(`startVoiceCooking`, `processVoiceCommand`, `stopVoiceCooking`, the VAD
speech-activity callback) as a labelled transition system over an explicit
state record.  React state setters (`setState`, `setVoiceTranscript`, ...) are
modelled as direct updates of the corresponding state fields, and reads of
those variables as reads of the current values.  Several `processTurn`
promises can be pending at once (nothing in the source prevents starting a
new session while an old call is still awaited), so the in-flight calls are
kept as a list and each stage event names the call it belongs to.
-/

namespace RecipeSnap

/-- Navigation commands actually derivable from the code: the
`onResponseComplete` handler either schedules `nextStep`, schedules
`prevStep`, or schedules nothing. -/
inductive NavCmd
  | next
  | previous
deriving DecidableEq

/-- Whether the second character list occurs at the head of the first. -/
def listStartsWith : List Char → List Char → Bool
  | _, [] => true
  | [], _ :: _ => false
  | c :: t, p :: q => c == p && listStartsWith t q

/-- Whether the pattern occurs as a contiguous run inside the list: the
behaviour of JavaScript `String.prototype.includes` on character lists. -/
def listHasSub (pat : List Char) : List Char → Bool
  | [] => pat.isEmpty
  | c :: t => listStartsWith (c :: t) pat || listHasSub pat t

/-- JavaScript `s.includes(pat)` on Lean strings. -/
def jsIncludes (s pat : String) : Bool :=
  listHasSub pat.data s.data

/-- JavaScript `s.toLowerCase()`, character by character.  All phrases the
source tests for are ASCII, for which this agrees with the JavaScript
behaviour. -/
def strLower (s : String) : String :=
  String.mk (s.data.map Char.toLower)

/-- Embedding of the navigation check in `onResponseComplete`
(`part_000` lines 328-334): the lowercased reply is tested for the substring
"next step" and the lowercased transcript for "next" (scheduling `nextStep`),
otherwise the lowercased reply is tested for "previous" and the lowercased
transcript for "back" (scheduling `prevStep`); otherwise nothing is scheduled.
The `else if` of the source gives the Next branch priority. -/
def navInterpret (transcript reply : String) : Option NavCmd :=
  if jsIncludes (strLower reply) "next step" || jsIncludes (strLower transcript) "next" then
    some NavCmd.next
  else if jsIncludes (strLower reply) "previous" || jsIncludes (strLower transcript) "back" then
    some NavCmd.previous
  else
    none

/-- `nextStep` (`part_000` lines 369-373): with a recipe present, the step
pointer advances unless it is already at the last index.  Indices are
JavaScript numbers, modelled as integers so that `steps.length - 1` is `-1`
for an empty step list, exactly as in the source. -/
def nextStep (stepCount currentStep : Int) : Int :=
  if currentStep < stepCount - 1 then currentStep + 1 else currentStep

/-- `prevStep` (`part_000` lines 375-379). -/
def prevStep (currentStep : Int) : Int :=
  if 0 < currentStep then currentStep - 1 else currentStep

/-- Application of one scheduled navigation command to the step pointer: the
bodies of the two `setTimeout` callbacks at lines 330 and 332. -/
def applyNavCmd (stepCount currentStep : Int) : NavCmd → Int
  | NavCmd.next => nextStep stepCount currentStep
  | NavCmd.previous => prevStep currentStep

/-- The two values of the component's `state` variable that the voice
orchestration reads and writes: `'recipe-ready'` and `'cooking-voice'`. -/
inductive Mode
  | recipeReady
  | cookingVoice
deriving DecidableEq

/-- The stage an in-flight `pipeline.processTurn` call is at.  The stages of
one call run strictly in order: transcription, reply generation, synthesis,
playback. -/
inductive Phase
  | transcribing
  | generating
  | synthesizing
  | playing
deriving DecidableEq

/-- An in-flight turn: its current stage, and the step index that was baked
into the `systemPrompt` handed to `processTurn` when the turn started
(line 317). -/
structure TurnState where
  phase : Phase
  ctxStep : Int
deriving DecidableEq

/-- State of the voice-cooking orchestration in `RecipeSnapTab`, restricted to
the fields the voice flow touches.  `micOn` is whether an `AudioCapture` is
delivering chunks, `subscribed` whether a `VAD.onSpeechActivity` listener
registered at line 294 is attached, `vadBuffer` the sample count of the
utterance currently buffered (and not yet popped) inside the VAD, `inFlight`
the pending `processTurn` calls in invocation order (the source awaits each
call but nothing stops a stopped-and-restarted session from invoking another
while an old one is pending), and `pendingNav` the queue of `setTimeout`
navigation callbacks scheduled at lines 330/332 that have not fired yet.
`audioPlayed` is a history flag: cleared when a turn is invoked, set when a
turn's playback runs to completion. -/
structure OrchState where
  recipeSteps : List String
  mode : Mode
  micOn : Bool
  subscribed : Bool
  vadBuffer : Option Nat
  inFlight : List TurnState
  voiceTranscript : String
  voiceResponse : String
  errorMsg : Option String
  currentStep : Int
  pendingNav : List NavCmd
  audioLevel : Nat
  audioPlayed : Bool
deriving DecidableEq

/-- Externally visible actions a transition performs, in program order. -/
inductive Act
  | micStop
  | unsub
  | invokeTurn
  | setResponse (text : String)
  | ttsAttempt (text : String) (failed : Bool)
  | micStart
  | playAudio
deriving DecidableEq

/-- Events driving the orchestration.  `start`/`stop` are the user pressing
the voice buttons; `vadAccumulate`/`speechEnded` are the segmenter buffering
an utterance of `n` samples and delivering its end-of-speech event;
`micLevel` is the amplitude callback; the eight turn labels are the pipeline
stages of the `i`-th pending `processTurn` call (0-based, in invocation
order) completing or failing; `timerFire` is one scheduled navigation
`setTimeout` callback running. -/
inductive Label
  | start (ttsFails : Bool)
  | stop
  | vadAccumulate (n : Nat)
  | speechEnded (n : Nat)
  | micLevel (n : Nat)
  | transcribed (i : Nat) (t : String)
  | transcribeFailed (i : Nat) (m : String)
  | replied (i : Nat) (r : String)
  | replyFailed (i : Nat) (m : String)
  | synthesized (i : Nat)
  | synthesisFailed (i : Nat) (m : String)
  | played (i : Nat)
  | playFailed (i : Nat) (m : String)
  | timerFire
deriving DecidableEq

/-- The spoken announcement built at line 271: `Step K+1: <step text>`.  An
out-of-range JavaScript index would read `undefined`; runs never exercise
that case. -/
def stepAnnounce (steps : List String) (k : Int) : String :=
  "Step " ++ toString (k + 1) ++ ": " ++ steps.getD k.toNat "undefined"

/-- The tail of `processVoiceCommand` (lines 350-359) for the `i`-th pending
call: after that call has been handled (result applied or error recorded), it
is no longer pending; capture restarts only if the component state still
reads `'cooking-voice'`, and the restart resets the VAD (clearing its buffer)
and starts a fresh microphone, but does not re-register the speech-activity
subscription removed at line 314 — the source never re-subscribes inside
`processVoiceCommand`. -/
def finishTurn (s : OrchState) (i : Nat) : OrchState × List Act :=
  if s.mode = Mode.cookingVoice then
    ({ s with inFlight := s.inFlight.eraseIdx i, micOn := true, vadBuffer := none },
     [Act.micStart])
  else
    ({ s with inFlight := s.inFlight.eraseIdx i }, [])

/-- One orchestration transition.  `none` means the event cannot occur in
this state (a disabled transition), otherwise the successor state plus the
actions performed, in order.

* `start` is `startVoiceCooking` (lines 248-307) with a recipe present and
  voice models loaded.  Its only guard, besides `!recipe`, is that the start
  control is rendered while the component state is not `'cooking-voice'`
  (line 512); in particular it can run while an old session's `processTurn`
  call is still pending.  It clears transcript/response/error, enters
  cooking-voice, announces the current step (the TTS failure flag `f` is
  swallowed by the `catch` at line 280: it changes no state), resets the
  VAD, subscribes the activity listener and starts the microphone.
* `stop` is `stopVoiceCooking` (lines 362-367): stop the microphone, detach
  the listener, return to recipe-ready, zero the level.  Nothing else — in
  particular the VAD buffer, pending turns and any scheduled navigation
  timeout are untouched.
* `vadAccumulate n` — microphone chunks feed `VAD.processSamples`
  (line 304/356), so the VAD can be holding a buffered utterance whenever
  the microphone is live, subscribed or not.
* `speechEnded n` — the callback at lines 294-301: deliverable only while
  subscribed and capturing; pops the buffered segment; if it has strictly
  more than 1600 samples, `processVoiceCommand` runs: microphone stopped and
  listener detached (lines 313-314) before the pipeline is invoked, the new
  call joining the pending list; otherwise the popped segment is simply
  dropped.
* turn labels — the pipeline callbacks of lines 316-348 for call `i`:
  `transcribed` is `onTranscription`, `replied` is `onResponseComplete`
  (which also schedules the navigation `setTimeout` derived from the current
  transcript and the reply), `synthesized` is `onSynthesisComplete` starting
  playback, `played` is playback finishing (after which the `result` branch
  re-applies the same transcript/response values) — completion is followed
  by the restart tail `finishTurn`.  A failing stage jumps to the `catch`
  (line 346), records the message in `error`, and falls through to the same
  restart tail.
* `timerFire` — the oldest scheduled navigation callback runs, mutating the
  step pointer through `nextStep`/`prevStep`. -/
def step (s : OrchState) (l : Label) : Option (OrchState × List Act) :=
  match l with
  | Label.start f =>
      if s.mode = Mode.cookingVoice then none
      else
        some ({ s with
                  voiceTranscript := ""
                  voiceResponse := stepAnnounce s.recipeSteps s.currentStep
                  errorMsg := none
                  mode := Mode.cookingVoice
                  vadBuffer := none
                  subscribed := true
                  micOn := true },
              [Act.setResponse (stepAnnounce s.recipeSteps s.currentStep),
               Act.ttsAttempt (stepAnnounce s.recipeSteps s.currentStep) f,
               Act.micStart])
  | Label.stop =>
      some ({ s with micOn := false, subscribed := false,
                     mode := Mode.recipeReady, audioLevel := 0 },
            [Act.micStop, Act.unsub])
  | Label.vadAccumulate n =>
      if s.micOn then some ({ s with vadBuffer := some n }, []) else none
  | Label.speechEnded n =>
      if s.subscribed ∧ s.micOn ∧ s.vadBuffer = some n then
        if 1600 < n then
          some ({ s with vadBuffer := none, micOn := false, subscribed := false,
                         inFlight := s.inFlight
                           ++ [{ phase := Phase.transcribing, ctxStep := s.currentStep }],
                         audioPlayed := false },
                [Act.micStop, Act.unsub, Act.invokeTurn])
        else
          some ({ s with vadBuffer := none }, [])
      else none
  | Label.micLevel n =>
      if s.micOn then some ({ s with audioLevel := n }, []) else none
  | Label.transcribed i t =>
      match s.inFlight[i]? with
      | some ts =>
          if ts.phase = Phase.transcribing then
            some ({ s with voiceTranscript := t,
                           inFlight := s.inFlight.set i
                             { phase := Phase.generating, ctxStep := ts.ctxStep } }, [])
          else none
      | none => none
  | Label.transcribeFailed i m =>
      match s.inFlight[i]? with
      | some ts =>
          if ts.phase = Phase.transcribing then
            some (finishTurn { s with errorMsg := some m } i)
          else none
      | none => none
  | Label.replied i r =>
      match s.inFlight[i]? with
      | some ts =>
          if ts.phase = Phase.generating then
            some ({ s with voiceResponse := r,
                           pendingNav := s.pendingNav
                             ++ (navInterpret s.voiceTranscript r).toList,
                           inFlight := s.inFlight.set i
                             { phase := Phase.synthesizing, ctxStep := ts.ctxStep } }, [])
          else none
      | none => none
  | Label.replyFailed i m =>
      match s.inFlight[i]? with
      | some ts =>
          if ts.phase = Phase.generating then
            some (finishTurn { s with errorMsg := some m } i)
          else none
      | none => none
  | Label.synthesized i =>
      match s.inFlight[i]? with
      | some ts =>
          if ts.phase = Phase.synthesizing then
            some ({ s with inFlight := s.inFlight.set i
                             { phase := Phase.playing, ctxStep := ts.ctxStep } },
                  [Act.playAudio])
          else none
      | none => none
  | Label.synthesisFailed i m =>
      match s.inFlight[i]? with
      | some ts =>
          if ts.phase = Phase.synthesizing then
            some (finishTurn { s with errorMsg := some m } i)
          else none
      | none => none
  | Label.played i =>
      match s.inFlight[i]? with
      | some ts =>
          if ts.phase = Phase.playing then
            some (finishTurn { s with audioPlayed := true } i)
          else none
      | none => none
  | Label.playFailed i m =>
      match s.inFlight[i]? with
      | some ts =>
          if ts.phase = Phase.playing then
            some (finishTurn { s with errorMsg := some m } i)
          else none
      | none => none
  | Label.timerFire =>
      match s.pendingNav with
      | [] => none
      | c :: rest =>
          some ({ s with currentStep := applyNavCmd (s.recipeSteps.length : Int)
                                          s.currentStep c,
                         pendingNav := rest }, [])

/-- Run a sequence of events from a state; `none` if any event is disabled. -/
def run (s : OrchState) : List Label → Option OrchState
  | [] => some s
  | l :: ls =>
      match step s l with
      | some p => run p.1 ls
      | none => none

/-- The recipe-ready state right after a recipe with the given steps has been
generated: no microphone, no subscription, no buffered segment, no turn in
flight, step pointer 0 (`setCurrentStep(0)` in `resetRecipe`, and the initial
`useState(0)`). -/
def mkInit (steps : List String) : OrchState :=
  { recipeSteps := steps
    mode := Mode.recipeReady
    micOn := false
    subscribed := false
    vadBuffer := none
    inFlight := []
    voiceTranscript := ""
    voiceResponse := ""
    errorMsg := none
    currentStep := 0
    pendingNav := []
    audioLevel := 0
    audioPlayed := false }

/-- The serialization invariant: at most one `processTurn` call pending, and
while one is pending the microphone is stopped and the speech-activity
listener detached.  It is preserved by every event except a session start
fired while a turn is pending. -/
def Inv (s : OrchState) : Prop :=
  s.inFlight.length ≤ 1 ∧
    (s.inFlight ≠ [] → s.micOn = false ∧ s.subscribed = false)

/-- Whether, along the execution of the given events, every session start
fires with no `processTurn` call pending.  Stopping and restarting a session
mid-turn is exactly the behaviour this excludes. -/
def startsIdle : OrchState → List Label → Bool
  | _, [] => true
  | s, l :: ls =>
      match step s l with
      | some q =>
          (match l with
           | Label.start _ => s.inFlight.isEmpty
           | _ => true) && startsIdle q.1 ls
      | none => true

/-- A three-step demo recipe used by the concrete executions below. -/
def demoSteps : List String := ["mix", "bake", "serve"]

/-- Start a session and speak a 2000-sample utterance: a turn begins. -/
def trMidTurn : List Label :=
  [Label.start false, Label.vadAccumulate 2000, Label.speechEnded 2000]

/-- The state `trMidTurn` reaches: a turn in flight at the transcription
stage, microphone stopped, listener detached. -/
def sMidTurn : OrchState :=
  { recipeSteps := demoSteps
    mode := Mode.cookingVoice
    micOn := false
    subscribed := false
    vadBuffer := none
    inFlight := [{ phase := Phase.transcribing, ctxStep := 0 }]
    voiceTranscript := ""
    voiceResponse := "Step 1: mix"
    errorMsg := none
    currentStep := 0
    pendingNav := []
    audioLevel := 0
    audioPlayed := false }

/-- Continue `trMidTurn`: transcription yields "next", the reply "ok"
completes, scheduling a Next navigation; synthesis is now pending. -/
def trSynth : List Label :=
  trMidTurn ++ [Label.transcribed 0 "next", Label.replied 0 "ok"]

/-- The state `trSynth` reaches: turn in flight at the synthesis stage with
transcript and reply already reported and one navigation command scheduled. -/
def sSynth : OrchState :=
  { sMidTurn with
      inFlight := [{ phase := Phase.synthesizing, ctxStep := 0 }]
      voiceTranscript := "next"
      voiceResponse := "ok"
      pendingNav := [NavCmd.next] }

/-- Continue `trSynth`: synthesis completes and playback begins. -/
def trPlay : List Label := trSynth ++ [Label.synthesized 0]

/-- The state `trPlay` reaches: turn in flight at the playback stage. -/
def sPlay : OrchState :=
  { sSynth with inFlight := [{ phase := Phase.playing, ctxStep := 0 }] }

/-- Stop the session while the turn of `trMidTurn` is still in flight. -/
def trStoppedMidTurn : List Label := trMidTurn ++ [Label.stop]

/-- The state `trStoppedMidTurn` reaches: stopped, turn still in flight. -/
def sStoppedMidTurn : OrchState := { sMidTurn with mode := Mode.recipeReady }

/-- Stop mid-turn, start a new session, and speak a new utterance while the
old session's turn is still pending: the source accepts all of it. -/
def trConcurrent : List Label :=
  trStoppedMidTurn
    ++ [Label.start false, Label.vadAccumulate 2000, Label.speechEnded 2000]

/-- Start a session and let the segmenter buffer a 2000-sample utterance
that has not been popped yet. -/
def trBuffered : List Label := [Label.start false, Label.vadAccumulate 2000]

/-- The state `trBuffered` reaches: listening with a buffered utterance. -/
def sBuffered : OrchState :=
  { sMidTurn with
      micOn := true
      subscribed := true
      vadBuffer := some 2000
      inFlight := [] }

/-- Like `sBuffered` but the buffered utterance has exactly 1600 samples. -/
def sBuffered1600 : OrchState := { sBuffered with vadBuffer := some 1600 }



/-! ## Theorems -/

/-- A successful index lookup means the list is not empty. -/
theorem getElem?_ne_nil {α : Type} {l : List α} {i : Nat} {a : α}
    (h : l[i]? = some a) : l ≠ [] := by
  intro hnil; subst hnil; simp at h

/-- Erasing a validly indexed element of a list of length at most one leaves
the empty list. -/
theorem eraseIdx_nil_of_len_le_one {α : Type} {l : List α} {i : Nat} {a : α}
    (h : l[i]? = some a) (hl : l.length ≤ 1) : l.eraseIdx i = [] := by
  cases l with
  | nil => simp at h
  | cons x xs =>
      cases xs with
      | nil =>
          cases i with
          | zero => simp [List.eraseIdx]
          | succ j => simp at h
      | cons y ys => simp at hl

/-- `eraseIdx` commutes with `map`. -/
theorem eraseIdx_map_comm {α β : Type} (f : α → β) :
    ∀ (l : List α) (i : Nat), (l.eraseIdx i).map f = (l.map f).eraseIdx i := by
  intro l
  induction l with
  | nil => intro i; simp [List.eraseIdx]
  | cons x xs ih =>
      intro i
      cases i with
      | zero => simp [List.eraseIdx]
      | succ j => simp [List.eraseIdx, ih j]

/-- Setting an index to the value it already holds is the identity. -/
theorem set_self_of_getElem? {α : Type} :
    ∀ (l : List α) (i : Nat) (a : α), l[i]? = some a → l.set i a = l := by
  intro l
  induction l with
  | nil => intro i a h; simp at h
  | cons x xs ih =>
      intro i a h
      cases i with
      | zero => simp at h; simp [h]
      | succ j => simp at h; simp [ih j a h]

/-- Advancing the phase of the `i`-th pending turn leaves the list of context
snapshots untouched. -/
theorem map_set_ctx (l : List TurnState) (i : Nat) (ts : TurnState) (ph : Phase)
    (h : l[i]? = some ts) :
    (l.set i { phase := ph, ctxStep := ts.ctxStep }).map TurnState.ctxStep
      = l.map TurnState.ctxStep := by
  rw [List.map_set]
  apply set_self_of_getElem?
  rw [List.getElem?_map, h]
  rfl

/-- Erasing a validly indexed element strictly shrinks the list. -/
theorem length_eraseIdx_lt {α : Type} {l : List α} {i : Nat} {a : α}
    (h : l[i]? = some a) : (l.eraseIdx i).length < l.length := by
  have hi : i < l.length := by
    by_contra hge
    rw [List.getElem?_eq_none (Nat.le_of_not_lt hge)] at h
    cases h
  rw [List.length_eraseIdx]
  simp [hi]
  omega

/-- Each transition preserves the serialization invariant `Inv`, provided a
session start only fires with no turn pending. -/
theorem step_preserves_inv (s : OrchState) (l : Label) (p : OrchState × List Act)
    (hs : Inv s) (hstep : step s l = some p)
    (hstart : ∀ f, l = Label.start f → s.inFlight = []) : Inv p.1 := by
  obtain ⟨hlen, hoff⟩ := hs
  unfold Inv
  cases l <;> simp only [step, finishTurn] at hstep <;>
    repeat' split at hstep
  all_goals cases hstep
  all_goals try (simp only [eraseIdx_nil_of_len_le_one (by assumption) hlen])
  all_goals try (have hx : s.inFlight ≠ [] := getElem?_ne_nil (by assumption))
  all_goals try (refine ⟨by simp_all, ?_⟩)
  all_goals try (intro hne)
  all_goals simp_all

/-- `Inv` is preserved along any event sequence whose session starts all fire
with no turn pending. -/
theorem run_preserves_inv (ls : List Label) :
    ∀ s s2, Inv s → run s ls = some s2 → startsIdle s ls = true → Inv s2 := by
  induction ls with
  | nil =>
      intro s s2 h hr _
      simp only [run, Option.some.injEq] at hr
      exact hr ▸ h
  | cons l ls ih =>
      intro s s2 h hr hidle
      simp only [run] at hr
      simp only [startsIdle] at hidle
      cases hp : step s l with
      | none => simp [hp] at hr
      | some p =>
          rw [hp] at hr
          rw [hp] at hidle
          simp only [Bool.and_eq_true] at hidle
          refine ih p.1 s2 (step_preserves_inv s l p h hp ?_) hr hidle.2
          intro f hl
          subst hl
          simpa [List.isEmpty_iff] using hidle.1

/-- Every state reachable from a recipe-ready start along an execution whose
session starts all fire idle satisfies `Inv`. -/
theorem run_mkInit_inv (steps : List String) (ls : List Label) (s : OrchState)
    (h : run (mkInit steps) ls = some s)
    (hidle : startsIdle (mkInit steps) ls = true) : Inv s :=
  run_preserves_inv ls (mkInit steps) s
    (by constructor <;> simp [mkInit]) h hidle

/-- One navigation application keeps the step pointer inside
`[0, stepCount - 1]`. -/
theorem applyNavCmd_bounds (sc i : Int) (c : NavCmd) (h0 : 0 ≤ i) (h1 : i ≤ sc - 1) :
    0 ≤ applyNavCmd sc i c ∧ applyNavCmd sc i c ≤ sc - 1 := by
  cases c <;> simp only [applyNavCmd, nextStep, prevStep] <;> split <;> omega

/-- Any sequence of navigation applications keeps the step pointer inside
`[0, stepCount - 1]`. -/
theorem foldl_applyNavCmd_bounds (sc : Int) (cmds : List NavCmd) :
    ∀ i : Int, 0 ≤ i → i ≤ sc - 1 →
      0 ≤ cmds.foldl (applyNavCmd sc) i ∧ cmds.foldl (applyNavCmd sc) i ≤ sc - 1 := by
  induction cmds with
  | nil => intro i h0 h1; simpa [List.foldl] using And.intro h0 h1
  | cons c cs ih =>
      intro i h0 h1
      have hb := applyNavCmd_bounds sc i c h0 h1
      simpa [List.foldl] using ih (applyNavCmd sc i c) hb.1 hb.2

/-- Step changes the current-step field only on `timerFire`. -/
theorem step_currentStep_eq (s : OrchState) (l : Label) (q : OrchState × List Act)
    (hstep : step s l = some q) (hl : l ≠ Label.timerFire) :
    q.1.currentStep = s.currentStep := by
  cases l <;> simp only [step, finishTurn] at hstep <;>
    repeat' split at hstep
  all_goals cases hstep
  all_goals simp_all

/-- A `timerFire` transition pops the oldest scheduled navigation command and
applies it to the step pointer through `applyNavCmd`. -/
theorem step_timerFire_spec (s : OrchState) (q : OrchState × List Act)
    (hstep : step s Label.timerFire = some q) :
    ∃ c rest, s.pendingNav = c :: rest ∧
      q.1.currentStep = applyNavCmd (s.recipeSteps.length : Int) s.currentStep c ∧
      q.1.pendingNav = rest := by
  simp only [step] at hstep
  cases hpn : s.pendingNav with
  | nil => rw [hpn] at hstep; cases hstep
  | cons c rest =>
      rw [hpn] at hstep
      cases hstep
      exact ⟨c, rest, rfl, rfl, rfl⟩

/-- Any transition changes the list of in-flight context snapshots in one of
three ways only: not at all (phase advances keep each snapshot), by removing
the snapshot of a completed turn, or by appending the invocation-time step
pointer for a newly started turn. -/
theorem step_ctxSteps_shape (s : OrchState) (l : Label) (q : OrchState × List Act)
    (hstep : step s l = some q) :
    q.1.inFlight.map TurnState.ctxStep = s.inFlight.map TurnState.ctxStep ∨
    (∃ i, q.1.inFlight.map TurnState.ctxStep
        = (s.inFlight.map TurnState.ctxStep).eraseIdx i) ∨
    q.1.inFlight.map TurnState.ctxStep
        = s.inFlight.map TurnState.ctxStep ++ [s.currentStep] := by
  cases l <;> simp only [step, finishTurn] at hstep <;>
    repeat' split at hstep
  all_goals cases hstep
  all_goals first
    | exact Or.inl rfl
    | exact Or.inr (Or.inl ⟨_, eraseIdx_map_comm _ _ _⟩)
    | exact Or.inl (map_set_ctx _ _ _ _ (by assumption))
    | (right; right; simp)

/-- From a state with the microphone off, only a session start or the
completion of a pending turn (which removes it from the pending list) can
turn the microphone back on. -/
theorem step_restart_only_on_finish (s : OrchState) (l : Label)
    (q : OrchState × List Act) (hstep : step s l = some q)
    (hm : s.micOn = false) (hmic : q.1.micOn = true) :
    (∃ f, l = Label.start f) ∨
      ∃ i ts, s.inFlight[i]? = some ts ∧ q.1.inFlight = s.inFlight.eraseIdx i := by
  cases l
  case start f => exact Or.inl ⟨f, rfl⟩
  all_goals refine Or.inr ?_
  all_goals (simp only [step, finishTurn] at hstep; repeat' split at hstep)
  all_goals cases hstep
  all_goals first
    | exact ⟨_, _, by assumption, rfl⟩
    | simp_all

/-- Claim C1, counterexample.  The claim says a segment of at least 1600
samples invokes the turn pipeline.  The source test at line 297 is
`segment.samples.length > 1600`, strict: after a session start, a buffered
utterance of exactly 1600 samples whose end-of-speech event is delivered
starts no turn (no call becomes pending), raises no error, and leaves the
microphone running. -/
theorem segment_threshold_cex :
    (run (mkInit demoSteps) [Label.start false, Label.vadAccumulate 1600,
        Label.speechEnded 1600]).map (fun s => (s.inFlight, s.errorMsg, s.micOn))
      = some ([], none, true) := by decide

/-- Claim C1, amended.  For every speech segment delivered by the segmenter,
the orchestrator invokes the turn pipeline if and only if the segment's
sample count is strictly greater than 1600; every segment with at most 1600
samples is discarded without invoking the pipeline and without raising an
error. -/
theorem segment_threshold (s : OrchState) (n : Nat) (q : OrchState × List Act)
    (hstep : step s (Label.speechEnded n) = some q) :
    (1600 < n →
      q.1.inFlight = s.inFlight
          ++ [{ phase := Phase.transcribing, ctxStep := s.currentStep }] ∧
      Act.invokeTurn ∈ q.2) ∧
    (n ≤ 1600 →
      q.1.inFlight = s.inFlight ∧ q.1.errorMsg = s.errorMsg ∧
      q.1.micOn = s.micOn ∧ q.2 = []) := by
  simp only [step] at hstep
  split at hstep
  · split at hstep
    · cases hstep
      refine ⟨fun _ => ⟨rfl, by simp⟩, fun hle => absurd ‹1600 < n› (by omega)⟩
    · cases hstep
      exact ⟨fun hlt => absurd hlt ‹¬1600 < n›, fun _ => ⟨rfl, rfl, rfl, rfl⟩⟩
  · cases hstep

/-- Witness for the amended C1 at a delivered 1600-sample segment: it is
dropped with no pipeline invocation, no error and no action. -/
theorem segment_threshold_witness :
    step sBuffered1600 (Label.speechEnded 1600)
        = some ({ sBuffered1600 with vadBuffer := none }, []) ∧
    ((1600 < 1600 →
      ({ sBuffered1600 with vadBuffer := none } : OrchState).inFlight
          = sBuffered1600.inFlight
            ++ [{ phase := Phase.transcribing, ctxStep := sBuffered1600.currentStep }] ∧
      Act.invokeTurn ∈ ([] : List Act)) ∧
    (1600 ≤ 1600 →
      ({ sBuffered1600 with vadBuffer := none } : OrchState).inFlight
          = sBuffered1600.inFlight ∧
      ({ sBuffered1600 with vadBuffer := none } : OrchState).errorMsg
          = sBuffered1600.errorMsg ∧
      ({ sBuffered1600 with vadBuffer := none } : OrchState).micOn
          = sBuffered1600.micOn ∧
      ([] : List Act) = [])) :=
  ⟨by decide, segment_threshold sBuffered1600 1600
      ({ sBuffered1600 with vadBuffer := none }, []) (by decide)⟩

/-- Claim C2, counterexample.  The claim says the transcript is checked for
"back" and "previous" (yielding Previous) and "next" (yielding Next), and the
reply is independently checked for the same phrases.  The code instead checks
the transcript only for "next"/"back" and the reply only for "next step"/
"previous": a transcript saying "previous", a reply saying "go back", and a
reply saying "next" all yield no navigation command, where the claim requires
Previous, Previous and Next respectively. -/
theorem navInterpret_cex :
    navInterpret "previous" "" = none ∧
    navInterpret "" "go back" = none ∧
    navInterpret "" "next" = none := by decide

/-- Claim C2, amended.  The navigation interpretation is a case-insensitive
substring match evaluated with Next taking priority: Next is produced exactly
when the reply contains "next step" or the transcript contains "next";
otherwise Previous is produced exactly when the reply contains "previous" or
the transcript contains "back"; when neither test fires, no navigation
command is produced. -/
theorem navInterpret_policy (t r : String) :
    (navInterpret t r = some NavCmd.next ↔
      (jsIncludes (strLower r) "next step" = true ∨
        jsIncludes (strLower t) "next" = true)) ∧
    (navInterpret t r = some NavCmd.previous ↔
      (¬(jsIncludes (strLower r) "next step" = true ∨
          jsIncludes (strLower t) "next" = true) ∧
        (jsIncludes (strLower r) "previous" = true ∨
          jsIncludes (strLower t) "back" = true))) ∧
    (navInterpret t r = none ↔
      (¬(jsIncludes (strLower r) "next step" = true ∨
          jsIncludes (strLower t) "next" = true) ∧
        ¬(jsIncludes (strLower r) "previous" = true ∨
          jsIncludes (strLower t) "back" = true))) := by
  unfold navInterpret
  cases h1 : jsIncludes (strLower r) "next step" <;>
    cases h2 : jsIncludes (strLower t) "next" <;>
      cases h3 : jsIncludes (strLower r) "previous" <;>
        cases h4 : jsIncludes (strLower t) "back" <;> simp_all

/-- Claim C3, counterexample.  The claim says capture is not restarted until
the in-flight invocation's result has been handled and that no two
turn-pipeline calls are ever in flight concurrently.  `startVoiceCooking` has
no guard against a pending call: stopping the session mid-turn re-renders
the start control (state is `'recipe-ready'`), and pressing it restarts
capture while the old call is still pending — the first execution ends with
the microphone on and one call pending.  A new 2000-sample utterance then
invokes `processTurn` again: the second execution ends with two calls
pending at once. -/
theorem turn_serialization_cex :
    (run (mkInit demoSteps) (trStoppedMidTurn ++ [Label.start false])).map
      (fun s => (s.inFlight.length, s.micOn)) = some (1, true) ∧
    (run (mkInit demoSteps) trConcurrent).map
      (fun s => s.inFlight.length) = some 2 := by decide

/-- Claim C3, amended.  Each invocation stops the microphone and removes the
segmenter subscription before handing the utterance to the pipeline (the
invoking transition performs exactly micStop, unsubscribe, invoke, in that
order — last conjunct, unconditional).  Along any execution in which no
session start fires while a turn is pending, at most one turn-pipeline call
is ever in flight, and while one is: capture is off, the listener is
detached, no chunk or utterance event is deliverable, and the only
transitions that can turn capture back on are a new session start or the
transition that completes the pending call's handling (shrinking the pending
list); hence, absent a mid-turn session restart, the Nth turn's completion
precedes the (N+1)th turn's capture. -/
theorem turn_serialization_amended (steps : List String) (ls : List Label)
    (s : OrchState)
    (hreach : run (mkInit steps) ls = some s)
    (hidle : startsIdle (mkInit steps) ls = true) :
    s.inFlight.length ≤ 1 ∧
    (s.inFlight ≠ [] →
      s.micOn = false ∧ s.subscribed = false ∧
      (∀ n, step s (Label.speechEnded n) = none) ∧
      (∀ n, step s (Label.vadAccumulate n) = none) ∧
      (∀ l q, step s l = some q → q.1.micOn = true →
        (∃ f, l = Label.start f) ∨ q.1.inFlight.length < s.inFlight.length)) ∧
    (∀ u : OrchState, ∀ n : Nat, ∀ q : OrchState × List Act,
      step u (Label.speechEnded n) = some q →
      u.inFlight.length < q.1.inFlight.length →
      q.2 = [Act.micStop, Act.unsub, Act.invokeTurn] ∧
        q.1.micOn = false ∧ q.1.subscribed = false) := by
  obtain ⟨hlen, hoff⟩ := run_mkInit_inv steps ls s hreach hidle
  refine ⟨hlen, ?_, ?_⟩
  · intro hne
    obtain ⟨hm, hs⟩ := hoff hne
    refine ⟨hm, hs, ?_, ?_, ?_⟩
    · intro n; simp [step, hs]
    · intro n; simp [step, hm]
    · intro l q hstep hmic
      rcases step_restart_only_on_finish s l q hstep hm hmic with h | ⟨i, ts, hi, hq⟩
      · exact Or.inl h
      · exact Or.inr (hq ▸ length_eraseIdx_lt hi)
  · intro u n q hq hgrow
    simp only [step] at hq
    split at hq
    · split at hq
      · cases hq; exact ⟨rfl, rfl, rfl⟩
      · cases hq; simp at hgrow
    · cases hq

/-- Witness for the amended C3 at the concrete state reached by starting a
session and speaking one 2000-sample utterance (an execution whose only
session start fires idle). -/
theorem turn_serialization_amended_witness :
    run (mkInit demoSteps) trMidTurn = some sMidTurn ∧
    startsIdle (mkInit demoSteps) trMidTurn = true ∧
    (sMidTurn.inFlight.length ≤ 1 ∧
    (sMidTurn.inFlight ≠ [] →
      sMidTurn.micOn = false ∧ sMidTurn.subscribed = false ∧
      (∀ n, step sMidTurn (Label.speechEnded n) = none) ∧
      (∀ n, step sMidTurn (Label.vadAccumulate n) = none) ∧
      (∀ l q, step sMidTurn l = some q → q.1.micOn = true →
        (∃ f, l = Label.start f) ∨
          q.1.inFlight.length < sMidTurn.inFlight.length)) ∧
    (∀ u : OrchState, ∀ n : Nat, ∀ q : OrchState × List Act,
      step u (Label.speechEnded n) = some q →
      u.inFlight.length < q.1.inFlight.length →
      q.2 = [Act.micStop, Act.unsub, Act.invokeTurn] ∧
        q.1.micOn = false ∧ q.1.subscribed = false)) :=
  ⟨by decide, by decide,
    turn_serialization_amended demoSteps trMidTurn sMidTurn (by decide) (by decide)⟩

/-- Claim C4: applying Next at the last step index leaves the index
unchanged, applying Previous at index 0 leaves it unchanged, and any sequence
of Next/Previous applications started inside `[0, stepCount - 1]` stays
inside `[0, stepCount - 1]`. -/
theorem nav_clamp (sc i : Int) (cmds : List NavCmd) (h0 : 0 ≤ i) (h1 : i ≤ sc - 1) :
    nextStep sc (sc - 1) = sc - 1 ∧ prevStep 0 = 0 ∧
    0 ≤ cmds.foldl (applyNavCmd sc) i ∧ cmds.foldl (applyNavCmd sc) i ≤ sc - 1 :=
  ⟨by simp [nextStep], by simp [prevStep],
    (foldl_applyNavCmd_bounds sc cmds i h0 h1).1,
    (foldl_applyNavCmd_bounds sc cmds i h0 h1).2⟩

/-- Witness for C4 at a three-step recipe, starting at index 0, with the
command sequence Next, Next, Next, Previous. -/
theorem nav_clamp_witness :
    (0:Int) ≤ 0 ∧ (0:Int) ≤ 3 - 1 ∧
    (nextStep 3 (3 - 1) = 3 - 1 ∧ prevStep 0 = 0 ∧
      0 ≤ [NavCmd.next, NavCmd.next, NavCmd.next, NavCmd.previous].foldl (applyNavCmd 3) 0 ∧
      [NavCmd.next, NavCmd.next, NavCmd.next, NavCmd.previous].foldl (applyNavCmd 3) 0 ≤ 3 - 1) :=
  ⟨by decide, by decide,
    nav_clamp 3 0 [NavCmd.next, NavCmd.next, NavCmd.next, NavCmd.previous]
      (by decide) (by decide)⟩

/-- Claim C5: if the synthesis stage or the playback stage of a pending turn
fails after transcript and reply were obtained (the turn is past reply
generation), the reported transcript and reply are untouched, the error is
recorded, the failing transition starts no playback and completes none, the
scheduled navigation command survives and, when it fires, is still applied
to the step pointer, and the orchestrator resumes listening (microphone
restarted, the failed call no longer pending). -/
theorem stage_failure_keeps_results (s : OrchState) (i : Nat) (k : Int)
    (m : String) (fl : Label)
    (hmode : s.mode = Mode.cookingVoice)
    (hfail :
      (fl = Label.synthesisFailed i m ∧
        s.inFlight[i]? = some { phase := Phase.synthesizing, ctxStep := k }) ∨
      (fl = Label.playFailed i m ∧
        s.inFlight[i]? = some { phase := Phase.playing, ctxStep := k })) :
    ∃ q : OrchState × List Act, step s fl = some q ∧
      q.1.voiceTranscript = s.voiceTranscript ∧
      q.1.voiceResponse = s.voiceResponse ∧
      q.1.errorMsg = some m ∧
      q.1.pendingNav = s.pendingNav ∧
      q.1.audioPlayed = s.audioPlayed ∧
      Act.playAudio ∉ q.2 ∧
      q.1.micOn = true ∧
      q.1.inFlight = s.inFlight.eraseIdx i ∧
      q.1.currentStep = s.currentStep ∧
      (∀ c rest, s.pendingNav = c :: rest →
        (step q.1 Label.timerFire).map (fun p => p.1.currentStep)
          = some (applyNavCmd (s.recipeSteps.length : Int) s.currentStep c)) := by
  rcases hfail with ⟨hfl, hi⟩ | ⟨hfl, hi⟩
  · subst hfl
    refine ⟨({ s with errorMsg := some m, inFlight := s.inFlight.eraseIdx i,
                      micOn := true, vadBuffer := none }, [Act.micStart]),
      ?_, rfl, rfl, rfl, rfl, rfl, by simp, rfl, rfl, rfl, ?_⟩
    · simp [step, hi, finishTurn, hmode]
    · intro c rest hpn
      simp [step, hpn]
  · subst hfl
    refine ⟨({ s with errorMsg := some m, inFlight := s.inFlight.eraseIdx i,
                      micOn := true, vadBuffer := none }, [Act.micStart]),
      ?_, rfl, rfl, rfl, rfl, rfl, by simp, rfl, rfl, rfl, ?_⟩
    · simp [step, hi, finishTurn, hmode]
    · intro c rest hpn
      simp [step, hpn]

/-- Witness for C5 exercising both covered stages: failing synthesis at the
concrete state reached by `trSynth` (transcript "next", reply "ok", a Next
navigation scheduled), and failing playback at the state reached by
`trPlay`. -/
theorem stage_failure_keeps_results_witness :
    run (mkInit demoSteps) trSynth = some sSynth ∧
    run (mkInit demoSteps) trPlay = some sPlay ∧
    (∃ q : OrchState × List Act,
      step sSynth (Label.synthesisFailed 0 "SynthesisError") = some q ∧
      q.1.voiceTranscript = sSynth.voiceTranscript ∧
      q.1.voiceResponse = sSynth.voiceResponse ∧
      q.1.errorMsg = some "SynthesisError" ∧
      q.1.pendingNav = sSynth.pendingNav ∧
      q.1.audioPlayed = sSynth.audioPlayed ∧
      Act.playAudio ∉ q.2 ∧
      q.1.micOn = true ∧
      q.1.inFlight = sSynth.inFlight.eraseIdx 0 ∧
      q.1.currentStep = sSynth.currentStep ∧
      (∀ c rest, sSynth.pendingNav = c :: rest →
        (step q.1 Label.timerFire).map (fun p => p.1.currentStep)
          = some (applyNavCmd (sSynth.recipeSteps.length : Int)
                    sSynth.currentStep c))) ∧
    (∃ q : OrchState × List Act,
      step sPlay (Label.playFailed 0 "PlaybackError") = some q ∧
      q.1.voiceTranscript = sPlay.voiceTranscript ∧
      q.1.voiceResponse = sPlay.voiceResponse ∧
      q.1.errorMsg = some "PlaybackError" ∧
      q.1.pendingNav = sPlay.pendingNav ∧
      q.1.audioPlayed = sPlay.audioPlayed ∧
      Act.playAudio ∉ q.2 ∧
      q.1.micOn = true ∧
      q.1.inFlight = sPlay.inFlight.eraseIdx 0 ∧
      q.1.currentStep = sPlay.currentStep ∧
      (∀ c rest, sPlay.pendingNav = c :: rest →
        (step q.1 Label.timerFire).map (fun p => p.1.currentStep)
          = some (applyNavCmd (sPlay.recipeSteps.length : Int)
                    sPlay.currentStep c))) :=
  ⟨by decide, by decide,
    stage_failure_keeps_results sSynth 0 0 "SynthesisError"
      (Label.synthesisFailed 0 "SynthesisError") (by decide)
      (Or.inl ⟨rfl, by decide⟩),
    stage_failure_keeps_results sPlay 0 0 "PlaybackError"
      (Label.playFailed 0 "PlaybackError") (by decide)
      (Or.inr ⟨rfl, by decide⟩)⟩

/-- Claim C6, counterexample.  The claim says a turn in flight when the
session is stopped has its transcript/reply not applied and its navigation
command not applied.  Concretely: stop during the transcription stage, then
let the turn run to completion with transcript "next" and reply "sure" and
let the scheduled navigation timeout fire.  The final state has the
transcript and reply applied, the step pointer advanced from 0 to 1 by the
discarded turn's navigation command, and the turn's audio played — only the
microphone restart is suppressed. -/
theorem stop_discard_cex :
    (run (mkInit demoSteps) (trStoppedMidTurn ++ [Label.transcribed 0 "next",
        Label.replied 0 "sure", Label.synthesized 0, Label.played 0,
        Label.timerFire])).map
      (fun s => (s.voiceTranscript, s.voiceResponse, s.currentStep, s.micOn, s.audioPlayed))
      = some ("next", "sure", 1, false, true) := by decide

/-- Claim C6, amended.  If the session is stopped while a turn-pipeline call
is in flight, the call runs to completion and the orchestrator does not
restart the microphone (does not re-enter listening); however the call's
transcript and reply are still applied to the reported state, its synthesized
audio is still played, and its scheduled navigation command is still applied
to the step pointer when the timeout fires. -/
theorem stop_discard_amended (s : OrchState) (t r : String) (k : Int)
    (hmode : s.mode = Mode.recipeReady)
    (hflight : s.inFlight = [{ phase := Phase.transcribing, ctxStep := k }]) :
    ∃ s2 : OrchState,
      run s [Label.transcribed 0 t, Label.replied 0 r, Label.synthesized 0,
        Label.played 0] = some s2 ∧
      s2.voiceTranscript = t ∧ s2.voiceResponse = r ∧
      s2.pendingNav = s.pendingNav ++ (navInterpret t r).toList ∧
      s2.micOn = s.micOn ∧ s2.mode = Mode.recipeReady ∧
      s2.inFlight = [] ∧ s2.audioPlayed = true ∧ s2.currentStep = s.currentStep ∧
      (∀ c, s.pendingNav = [] → navInterpret t r = some c →
        (step s2 Label.timerFire).map (fun p => p.1.currentStep)
          = some (applyNavCmd (s.recipeSteps.length : Int) s.currentStep c)) := by
  refine ⟨{ s with voiceTranscript := t, voiceResponse := r,
                   pendingNav := s.pendingNav ++ (navInterpret t r).toList,
                   inFlight := [], audioPlayed := true },
    ?_, rfl, rfl, rfl, rfl, hmode, rfl, rfl, rfl, ?_⟩
  · simp [run, step, hflight, finishTurn, hmode, List.eraseIdx]
  · intro c hpn hnav
    simp [step, hpn, hnav]

/-- Witness for the amended C6 at the concrete stopped-mid-turn state, with
transcript "next" and reply "sure". -/
theorem stop_discard_amended_witness :
    run (mkInit demoSteps) trStoppedMidTurn = some sStoppedMidTurn ∧
    sStoppedMidTurn.mode = Mode.recipeReady ∧
    sStoppedMidTurn.inFlight = [{ phase := Phase.transcribing, ctxStep := 0 }] ∧
    (∃ s2 : OrchState,
      run sStoppedMidTurn [Label.transcribed 0 "next", Label.replied 0 "sure",
        Label.synthesized 0, Label.played 0] = some s2 ∧
      s2.voiceTranscript = "next" ∧ s2.voiceResponse = "sure" ∧
      s2.pendingNav = sStoppedMidTurn.pendingNav
        ++ (navInterpret "next" "sure").toList ∧
      s2.micOn = sStoppedMidTurn.micOn ∧ s2.mode = Mode.recipeReady ∧
      s2.inFlight = [] ∧ s2.audioPlayed = true ∧
      s2.currentStep = sStoppedMidTurn.currentStep ∧
      (∀ c, sStoppedMidTurn.pendingNav = [] → navInterpret "next" "sure" = some c →
        (step s2 Label.timerFire).map (fun p => p.1.currentStep)
          = some (applyNavCmd (sStoppedMidTurn.recipeSteps.length : Int)
                    sStoppedMidTurn.currentStep c))) :=
  ⟨by decide, by decide, by decide,
    stop_discard_amended sStoppedMidTurn "next" "sure" 0 (by decide) (by decide)⟩

/-- Claim C7, counterexample.  The claim says the step pointer is never
mutated concurrently with an in-flight turn-pipeline call.  The navigation
`setTimeout` scheduled at reply completion can fire while the same turn's
synthesis stage is still pending: in the state reached by `trSynth` the turn
is in flight, yet the timer transition mutates the step pointer from 0 to 1
with the turn still in flight afterwards. -/
theorem step_pointer_mutation_cex :
    (run (mkInit demoSteps) trSynth).bind
      (fun s => (step s Label.timerFire).map
        (fun p => (s.inFlight.length, s.currentStep, p.1.currentStep,
          p.1.inFlight.length)))
      = some (1, 0, 1, 1) := by decide

/-- Claim C7, amended.  The step pointer is mutated only by the
orchestrator's scheduled navigation handler (the `setTimeout` queued at reply
completion), which pops one queued command and applies it through
`nextStep`/`prevStep`; and the context snapshots handed to the pipeline (the
step index baked into each call's system prompt at turn start) are never
updated while the calls are in flight — a transition leaves the snapshot list
unchanged, removes a completed call's snapshot, or appends the
invocation-time pointer for a new call.  The mutation, however, is not
confined to between turns: the scheduled handler may fire while the same
turn's later stages are still in flight. -/
theorem step_pointer_mutation (s : OrchState) (l : Label)
    (q : OrchState × List Act) (hstep : step s l = some q) :
    (q.1.currentStep ≠ s.currentStep →
      l = Label.timerFire ∧ ∃ c rest, s.pendingNav = c :: rest ∧
        q.1.currentStep = applyNavCmd (s.recipeSteps.length : Int) s.currentStep c ∧
        q.1.pendingNav = rest) ∧
    (q.1.inFlight.map TurnState.ctxStep = s.inFlight.map TurnState.ctxStep ∨
      (∃ i, q.1.inFlight.map TurnState.ctxStep
          = (s.inFlight.map TurnState.ctxStep).eraseIdx i) ∨
      q.1.inFlight.map TurnState.ctxStep
          = s.inFlight.map TurnState.ctxStep ++ [s.currentStep]) := by
  constructor
  · intro hne
    by_cases hl : l = Label.timerFire
    · subst hl
      exact ⟨rfl, step_timerFire_spec s q hstep⟩
    · exact absurd (step_currentStep_eq s l q hstep hl) hne
  · exact step_ctxSteps_shape s l q hstep

/-- Witness for the amended C7 at the concrete `trSynth` state with the
navigation timer firing mid-turn. -/
theorem step_pointer_mutation_witness :
    run (mkInit demoSteps) trSynth = some sSynth ∧
    step sSynth Label.timerFire
      = some ({ sSynth with currentStep := 1, pendingNav := [] }, []) ∧
    ((({ sSynth with currentStep := 1, pendingNav := [] },
        ([] : List Act)).1.currentStep ≠ sSynth.currentStep →
      Label.timerFire = Label.timerFire ∧ ∃ c rest, sSynth.pendingNav = c :: rest ∧
        ({ sSynth with currentStep := 1, pendingNav := [] } : OrchState).currentStep
          = applyNavCmd (sSynth.recipeSteps.length : Int) sSynth.currentStep c ∧
        ({ sSynth with currentStep := 1, pendingNav := [] } : OrchState).pendingNav
          = rest) ∧
    (({ sSynth with currentStep := 1, pendingNav := [] },
        ([] : List Act)).1.inFlight.map TurnState.ctxStep
          = sSynth.inFlight.map TurnState.ctxStep ∨
      (∃ i, ({ sSynth with currentStep := 1, pendingNav := [] },
          ([] : List Act)).1.inFlight.map TurnState.ctxStep
            = (sSynth.inFlight.map TurnState.ctxStep).eraseIdx i) ∨
      ({ sSynth with currentStep := 1, pendingNav := [] },
        ([] : List Act)).1.inFlight.map TurnState.ctxStep
          = sSynth.inFlight.map TurnState.ctxStep ++ [sSynth.currentStep])) :=
  ⟨by decide, by decide,
    step_pointer_mutation sSynth Label.timerFire
      ({ sSynth with currentStep := 1, pendingNav := [] }, []) (by decide)⟩

/-- Claim C8: stopping is idempotent.  From any state, `stopVoiceCooking`
succeeds (never errors), reaches a fixed point in one application (a second
stop reproduces exactly the same state and actions), and the resulting
session-control state — recipe-ready mode, microphone off, listener
detached, level zeroed — is the same no matter whether the session was
active, already stopped, or never started. -/
theorem stop_idempotent (s : OrchState) :
    ∃ q : OrchState × List Act, step s Label.stop = some q ∧
      step q.1 Label.stop = some q ∧
      q.1.mode = Mode.recipeReady ∧ q.1.micOn = false ∧
      q.1.subscribed = false ∧ q.1.audioLevel = 0 :=
  ⟨({ s with micOn := false, subscribed := false,
             mode := Mode.recipeReady, audioLevel := 0 }, [Act.micStop, Act.unsub]),
    rfl, rfl, rfl, rfl, rfl, rfl⟩

/-- Claim C9, counterexample.  The claim says stop discards any buffered
utterance held by the segmenter.  `stopVoiceCooking` (lines 362-367) never
calls `VAD.reset()`: stopping while the segmenter holds a 2000-sample
buffered utterance leaves that buffer in place — the stale utterance
survives the stop (it is only cleared by the reset at the next session
start). -/
theorem stop_keeps_buffer_cex :
    (run (mkInit demoSteps) (trBuffered ++ [Label.stop])).map
      (fun s => (s.mode, s.micOn, s.subscribed, s.vadBuffer))
      = some (Mode.recipeReady, false, false, some 2000) := by decide

/-- Claim C9, amended.  On an explicit stop the orchestrator releases the
audio source and unsubscribes from segmenter events, but does not clear the
segmenter's buffered utterance — the buffer survives the stop unchanged.  A
stale utterance can nevertheless never start a turn: utterance events are
undeliverable after the stop, and the start of the next voice session resets
the segmenter buffer before re-subscribing. -/
theorem stop_releases_resources (s : OrchState) (q : OrchState × List Act)
    (hstep : step s Label.stop = some q) :
    q.1.micOn = false ∧ q.1.subscribed = false ∧ q.1.mode = Mode.recipeReady ∧
    q.1.vadBuffer = s.vadBuffer ∧
    (∀ n, step q.1 (Label.speechEnded n) = none) ∧
    (∀ f : Bool, ∀ q2 : OrchState × List Act,
      step q.1 (Label.start f) = some q2 → q2.1.vadBuffer = none) := by
  simp only [step] at hstep
  cases hstep
  refine ⟨rfl, rfl, rfl, rfl, ?_, ?_⟩
  · intro n; simp [step]
  · intro f q2 hq2
    simp only [step] at hq2
    repeat' split at hq2
    all_goals cases hq2
    rfl

/-- Witness for the amended C9: stopping the concrete listening state that
holds a buffered 2000-sample utterance keeps that buffer. -/
theorem stop_releases_resources_witness :
    run (mkInit demoSteps) trBuffered = some sBuffered ∧
    step sBuffered Label.stop
      = some ({ sBuffered with micOn := false, subscribed := false,
                               mode := Mode.recipeReady, audioLevel := 0 },
              [Act.micStop, Act.unsub]) ∧
    (({ sBuffered with micOn := false, subscribed := false,
                       mode := Mode.recipeReady, audioLevel := 0 } : OrchState).vadBuffer
        = sBuffered.vadBuffer ∧
      sBuffered.vadBuffer = some 2000) :=
  ⟨by decide,
    by decide,
    (stop_releases_resources sBuffered
        ({ sBuffered with micOn := false, subscribed := false,
                          mode := Mode.recipeReady, audioLevel := 0 },
          [Act.micStop, Act.unsub]) (by decide)).2.2.2.1.symm ▸ ⟨rfl, rfl⟩⟩

/-- Claim C10: starting voice cooking with a recipe present first reports and
speaks the announcement "Step K+1: <step text>" of the current step and only
then starts the microphone (the action list is ordered); a failure of this
initial synthesis/playback is swallowed — the resulting state is identical
whether the TTS attempt failed or not, the error field stays empty, and the
session still enters cooking-voice mode with the microphone live and the
segmenter subscribed. -/
theorem start_announces_current_step (s : OrchState) (f : Bool)
    (hmode : s.mode ≠ Mode.cookingVoice) :
    ∃ q : OrchState × List Act, step s (Label.start f) = some q ∧
      q.2 = [Act.setResponse (stepAnnounce s.recipeSteps s.currentStep),
             Act.ttsAttempt (stepAnnounce s.recipeSteps s.currentStep) f,
             Act.micStart] ∧
      q.1.voiceResponse = stepAnnounce s.recipeSteps s.currentStep ∧
      q.1.micOn = true ∧ q.1.subscribed = true ∧
      q.1.mode = Mode.cookingVoice ∧ q.1.errorMsg = none ∧
      (step s (Label.start true)).map Prod.fst
        = (step s (Label.start false)).map Prod.fst := by
  refine ⟨({ s with voiceTranscript := "",
                    voiceResponse := stepAnnounce s.recipeSteps s.currentStep,
                    errorMsg := none, mode := Mode.cookingVoice, vadBuffer := none,
                    subscribed := true, micOn := true },
           [Act.setResponse (stepAnnounce s.recipeSteps s.currentStep),
            Act.ttsAttempt (stepAnnounce s.recipeSteps s.currentStep) f,
            Act.micStart]),
    ?_, rfl, rfl, rfl, rfl, rfl, rfl, ?_⟩
  · simp [step, hmode]
  · simp [step, hmode]

/-- Witness for C10 at the recipe-ready initial state with a failing initial
TTS attempt. -/
theorem start_announces_current_step_witness :
    (mkInit demoSteps).mode ≠ Mode.cookingVoice ∧
    (∃ q : OrchState × List Act, step (mkInit demoSteps) (Label.start true) = some q ∧
      q.2 = [Act.setResponse (stepAnnounce (mkInit demoSteps).recipeSteps
               (mkInit demoSteps).currentStep),
             Act.ttsAttempt (stepAnnounce (mkInit demoSteps).recipeSteps
               (mkInit demoSteps).currentStep) true,
             Act.micStart] ∧
      q.1.voiceResponse = stepAnnounce (mkInit demoSteps).recipeSteps
        (mkInit demoSteps).currentStep ∧
      q.1.micOn = true ∧ q.1.subscribed = true ∧
      q.1.mode = Mode.cookingVoice ∧ q.1.errorMsg = none ∧
      (step (mkInit demoSteps) (Label.start true)).map Prod.fst
        = (step (mkInit demoSteps) (Label.start false)).map Prod.fst) :=
  ⟨by decide,
    start_announces_current_step (mkInit demoSteps) true (by decide)⟩

end RecipeSnap
